import Mathlib

/-!
Verification development for the attendance-session backend
(Fastify routes in src/backend/src/routes/lecturer.ts and student.ts,
Drizzle schema in src/backend/src/db/schema.ts).

The store is modelled as in-memory lists mirroring the three tables plus
the auth user table.  Timestamps are epoch milliseconds (Int); the route
computes the payload age in seconds as a JS float division by 1000, which
is exact on these integer inputs, so it is modelled as exact division in ℚ.
-/

namespace Attendance

inductive SessionStatus where
  | active
  | completed
deriving DecidableEq, Repr

inductive RecordStatus where
  | present
  | absent
deriving DecidableEq, Repr

/-- Auth user row (auth-schema): id, name, role ("student" or "lecturer"). -/
structure User where
  id : String
  name : String
  role : String
deriving DecidableEq, Repr

/-- courses table row. -/
structure Course where
  id : String
  name : String
  code : String
  lecturerId : String
deriving DecidableEq, Repr

/-- attendance_sessions table row. -/
structure AttendanceSession where
  id : String
  courseId : String
  lecturerId : String
  week : Int
  date : String
  time : String
  status : SessionStatus
deriving DecidableEq, Repr

/-- attendance_records table row; scanTime is an epoch-ms timestamp,
none models SQL null (set exactly for absent back-fill rows). -/
structure AttendanceRecord where
  sessionId : String
  studentId : String
  status : RecordStatus
  scanTime : Option Int
deriving DecidableEq, Repr

/-- The persistent store: the three app tables plus the auth user table. -/
structure Store where
  users : List User
  courses : List Course
  sessions : List AttendanceSession
  records : List AttendanceRecord
deriving DecidableEq, Repr

/-! ## QR payload decode (scan route, lines 402-424)

JSON.parse either throws (malformed) or yields an object from which
studentId, name and timestamp are destructured; each field may be absent.
The timestamp field is fed to new Date(x).getTime(): some t models a
field that parses to epoch-ms t, none models a missing field or one on
which getTime() yields NaN. -/

inductive QrData where
  | malformed
  | parsed (studentId : Option String) (name : Option String) (timestamp : Option Int)
deriving DecidableEq, Repr

/-- timeDifference = (currentTime - qrTime) / 1000, in seconds (route
line 416).  The JS float division is exact in sign and in the
comparisons against 0 and 30 for integer millisecond inputs, so it is
modelled as exact division in ℚ. -/
def timeDifference (qrTime currentTime : Int) : ℚ :=
  ((currentTime - qrTime : Int) : ℚ) / 1000

/-- The freshness guard of route line 418:
if (timeDifference < 0 or timeDifference > 30) reject.
Stated over the millisecond difference (see timeDifference_neg_iff and
timeDifference_gt_iff) so the guard is kernel-computable.  When the
timestamp is NaN (modelled as none) both JS comparisons are false, so
the guard does not fire. -/
def freshnessFails (qrTime : Option Int) (currentTime : Int) : Bool :=
  match qrTime with
  | none => false
  | some t =>
    decide (currentTime - t < 0) || decide (currentTime - t > 30000)

/-- The distinct outcomes of POST /api/lecturer/sessions/:id/scan.
internalError models an exception reaching the catch block, which
rethrows and surfaces as a generic HTTP 500 (in particular a database
unique-constraint violation on insert). -/
inductive ScanError where
  | missingQrData
  | invalidFormat
  | expired
  | sessionNotFound
  | notOwner
  | sessionNotActive
  | studentNotFound
  | alreadyScanned
  | internalError
deriving DecidableEq, Repr

/-- Session records: st.records filtered to the session (the drizzle
relation attendanceSession.records). -/
def sessionRecords (st : Store) (sid : String) : List AttendanceRecord :=
  st.records.filter (fun r => r.sessionId == sid)

/-- True iff a record for (sessionId, studentId) exists — the predicate
behind both the application pre-check of the scan route and the
attendance_records_unique_idx unique index of schema.ts. -/
def hasRecord (st : Store) (sid uid : String) : Bool :=
  st.records.any (fun r => r.sessionId == sid && r.studentId == uid)

/-- Number of records for a (sessionId, studentId) pair. -/
def recordCount (st : Store) (sid uid : String) : Nat :=
  st.records.countP (fun r => r.sessionId == sid && r.studentId == uid)

/-- The database insert into attendance_records.  schema.ts declares
uniqueIndex attendance_records_unique_idx on (sessionId, studentId), so
the insert is atomic at the storage layer: it fails (none) exactly when
the pair already exists, otherwise appends the row. -/
def insertRecordDb (st : Store) (r : AttendanceRecord) : Option Store :=
  if hasRecord st r.sessionId r.studentId then none
  else some { st with records := st.records ++ [r] }

/-- The read-only phase of the scan route, in source order: JSON parse,
freshness guard, session lookup, ownership, active status, student
lookup, then the application-level duplicate pre-check (the findFirst of
route lines 461-474).  Returns the resolved student id and display name. -/
def scanChecks (st : Store) (sid : String) (qr : QrData) (callerId : String)
    (now : Int) : Except ScanError (String × String) :=
  match qr with
  | .malformed => .error .invalidFormat
  | .parsed studentId? _name? timestamp? =>
    if freshnessFails timestamp? now then .error .expired
    else
      match st.sessions.find? (fun s => s.id == sid) with
      | none => .error .sessionNotFound
      | some s =>
        if s.lecturerId ≠ callerId then .error .notOwner
        else if s.status ≠ .active then .error .sessionNotActive
        else
          match studentId? with
          | none => .error .studentNotFound
          | some stuId =>
            match st.users.find? (fun u => u.id == stuId) with
            | none => .error .studentNotFound
            | some student =>
              if hasRecord st sid student.id then .error .alreadyScanned
              else .ok (student.id, student.name)

/-- POST /api/lecturer/sessions/:id/scan for an authenticated lecturer:
missing qrData check, then the read phase, then the constrained insert
of a present record with scanTime = now. -/
def recordScan (st : Store) (sid : String) (qr : Option QrData) (callerId : String)
    (now : Int) : Except ScanError (Store × String) :=
  match qr with
  | none => .error .missingQrData
  | some q =>
    match scanChecks st sid q callerId now with
    | .error e => .error e
    | .ok (stuId, stuName) =>
      match insertRecordDb st ⟨sid, stuId, .present, some now⟩ with
      | none => .error .internalError
      | some st1 => .ok (st1, stuName)

/-- Two scan requests for the same student and session, interleaved so
that both pass the application pre-check before either insert runs
(checks-A, checks-B, insert-A, insert-B).  Each insert itself is atomic
under the unique index.  Returns (result of A, result of B, final store). -/
def raceSameScan (st : Store) (sid : String) (q : QrData) (callerId : String)
    (now : Int) : Except ScanError String × Except ScanError String × Store :=
  match scanChecks st sid q callerId now with
  | .error e => (.error e, .error e, st)
  | .ok (stuId, nm) =>
    match insertRecordDb st ⟨sid, stuId, .present, some now⟩ with
    | none => (.error .internalError, .error .internalError, st)
    | some st1 =>
      match insertRecordDb st1 ⟨sid, stuId, .present, some now⟩ with
      | none => (.ok nm, .error .internalError, st1)
      | some st2 => (.ok nm, .ok nm, st2)

/-! ## Session completion (PUT /api/lecturer/sessions/:id/complete, lines 509-620) -/

inductive CompleteError where
  | notFound
  | notOwner
deriving DecidableEq, Repr

/-- The selectDistinct query of route lines 559-575: users with role
student joined through attendance_records to attendance_sessions of the
given course — students affiliated with the course through some record.
The route computes this set but never uses it. -/
def courseStudents (st : Store) (cid : String) : List User :=
  st.users.filter (fun u =>
    u.role == "student" &&
    st.records.any (fun r =>
      r.studentId == u.id &&
      st.sessions.any (fun s => s.id == r.sessionId && s.courseId == cid)))

/-- The findMany of route lines 578-580: every user with role student,
regardless of course. -/
def allStudents (st : Store) : List User :=
  st.users.filter (fun u => u.role == "student")

/-- scannedStudentIds (route line 583): student ids of the records
already attached to the session. -/
def scannedStudentIds (st : Store) (sid : String) : List String :=
  (sessionRecords st sid).map (fun r => r.studentId)

/-- unscannedStudents (route line 586): all students in the system whose
id carries no record in this session. -/
def unscannedStudents (st : Store) (sid : String) : List User :=
  (allStudents st).filter (fun u => !(scannedStudentIds st sid).contains u.id)

/-- The batch insert of route lines 589-598: absent records with null
scanTime for every unscanned student.  A separate store write from the
status update that follows it. -/
def backfillAbsent (st : Store) (sid : String) : Store :=
  let newRecs := (unscannedStudents st sid).map
    (fun u => AttendanceRecord.mk sid u.id .absent none)
  { st with records := st.records ++ newRecs }

/-- The status update of route lines 601-604: set status completed on
the session with the given id. -/
def markCompleted (sid : String) (s : AttendanceSession) : AttendanceSession :=
  if s.id = sid then { s with status := .completed } else s

def setCompleted (st : Store) (sid : String) : Store :=
  { st with sessions := st.sessions.map (markCompleted sid) }

/-- PUT /api/lecturer/sessions/:id/complete for an authenticated
lecturer: session lookup, ownership check, then the back-fill insert
followed by the status update — two separate store writes, with no
transaction around them.  Returns the new store and absentCount. -/
def complete (st : Store) (sid callerId : String) :
    Except CompleteError (Store × Nat) :=
  match st.sessions.find? (fun s => s.id == sid) with
  | none => .error .notFound
  | some s =>
    if s.lecturerId ≠ callerId then .error .notOwner
    else .ok (setCompleted (backfillAbsent st sid) sid, (unscannedStudents st sid).length)

/-- The store produced by a successful complete call (unchanged store on
error), for stating closed facts about concrete runs. -/
def completeStore (st : Store) (sid callerId : String) : Store :=
  match complete st sid callerId with
  | .ok (st1, _) => st1
  | .error _ => st

/-- Status of the session with the given id, if present. -/
def sessionStatus (st : Store) (sid : String) : Option SessionStatus :=
  (st.sessions.find? (fun s => s.id == sid)).map (fun s => s.status)

/-! ## Statistics (GET /api/lecturer/statistics, lines 627-709) -/

/-- One row of the records/sessions/users join of route lines 667-676. -/
structure StatRow where
  studentId : String
  studentName : String
  status : RecordStatus
deriving DecidableEq, Repr

/-- One entry of presentList/absentList. -/
structure StatEntry where
  studentId : String
  name : String
deriving DecidableEq, Repr

/-- The response shape of the statistics route. -/
structure Stats where
  totalStudents : Nat
  presentCount : Nat
  absentCount : Nat
  percentage : Int
  presentList : List StatEntry
  absentList : List StatEntry
deriving DecidableEq, Repr

/-- JS Map insertion: an existing key keeps its position and takes the
new value, a new key is appended. -/
def jsMapInsert (m : List (String × StatEntry)) (e : StatEntry) :
    List (String × StatEntry) :=
  if m.any (fun p => p.1 == e.studentId) then
    m.map (fun p => if p.1 = e.studentId then (p.1, e) else p)
  else m ++ [(e.studentId, e)]

/-- Array.from(new Map(list.map(p => [p.studentId, p])).values()) of
route lines 701-702: one entry per distinct studentId. -/
def jsMapValues (l : List StatEntry) : List StatEntry :=
  (l.foldl jsMapInsert []).map (fun p => p.2)

/-- The join of route lines 667-676: attendance records inner-joined to
their session and user rows, filtered by lecturer and the optional
courseId and week narrowing.  Session and user ids are primary keys, so
the joins are modelled with find?. -/
def statRows (st : Store) (lecturerId : String) (courseId? : Option String)
    (week? : Option Int) : List StatRow :=
  st.records.filterMap (fun r =>
    match st.sessions.find? (fun s => s.id == r.sessionId),
          st.users.find? (fun u => u.id == r.studentId) with
    | some s, some u =>
      if s.lecturerId == lecturerId
          && (match courseId? with | none => true | some c => s.courseId == c)
          && (match week? with | none => true | some w => s.week == w)
      then some ⟨r.studentId, u.name, r.status⟩ else none
    | _, _ => none)

/-- Math.round((p / t) * 100) for natural p and t with t > 0, as the
integer (200 p + t) / (2 t): Math.round(x) is the floor of x + 1/2, and
the floor of 100 p / t + 1/2 is that integer division.  The lemma
jsRoundPercent_eq_round proves the identity against Mathlib round. -/
def jsRoundPercent (p t : Nat) : Nat :=
  (200 * p + t) / (2 * t)

/-- The aggregation of route lines 678-703: partition by status, count
records before deduplication, count distinct students for the total,
guard the percentage against a zero total, and deduplicate the returned
lists per studentId. -/
def computeStats (rows : List StatRow) : Stats :=
  let presentL := (rows.filter (fun r => r.status == .present)).map
      (fun r => StatEntry.mk r.studentId r.studentName)
  let absentL := (rows.filter (fun r => r.status == .absent)).map
      (fun r => StatEntry.mk r.studentId r.studentName)
  let totalStudents := ((presentL ++ absentL).map (fun e => e.studentId)).dedup.length
  let presentCount := presentL.length
  let absentCount := absentL.length
  let percentage : Int :=
    if totalStudents > 0
    then (jsRoundPercent presentCount totalStudents : Int)
    else 0
  { totalStudents := totalStudents, presentCount := presentCount,
    absentCount := absentCount, percentage := percentage,
    presentList := jsMapValues presentL, absentList := jsMapValues absentL }

/-! ## Concrete fixtures for counterexamples and witnesses -/

def emptyStore : Store := ⟨[], [], [], []⟩

def demoLect : User := ⟨"L", "Dr Lee", "lecturer"⟩

def demoAlice : User := ⟨"u1", "Alice", "student"⟩

def demoBob : User := ⟨"u2", "Bob", "student"⟩

def demoCourse : Course := ⟨"c1", "Calculus", "CS101", "L"⟩

def demoSession : AttendanceSession := ⟨"s1", "c1", "L", 3, "2026-01-05", "09:00", .active⟩

def demoRecord : AttendanceRecord := ⟨"s1", "u1", .present, some 500⟩

/-- Store with an active session of course c1 owned by L, student Alice
already scanned, and student Bob with no record anywhere. -/
def demoStore : Store :=
  ⟨[demoLect, demoAlice, demoBob], [demoCourse], [demoSession], [demoRecord]⟩

/-- Store with the active session and no records: the starting point for
the duplicate-scan race. -/
def scanStore : Store := ⟨[demoLect, demoAlice], [demoCourse], [demoSession], []⟩

/-- A decoded QR payload for Alice issued at epoch ms 0. -/
def qrAlice : QrData := .parsed (some "u1") (some "Alice") (some 0)

/-- One student present in two matched sessions, after the join. -/
def statRowsDup : List StatRow :=
  [⟨"u1", "Alice", .present⟩, ⟨"u1", "Alice", .present⟩]

/-! # Theorems -/

/-! ## Freshness arithmetic -/

/-- timeDifference is negative exactly when the millisecond difference is. -/
theorem timeDifference_neg_iff (qrTime currentTime : Int) :
    timeDifference qrTime currentTime < 0 ↔ currentTime - qrTime < 0 := by
  unfold timeDifference
  rw [div_neg_iff]
  constructor
  · rintro (⟨h, h1000⟩ | ⟨h, _⟩)
    · exact absurd h1000 (by norm_num)
    · exact_mod_cast h
  · intro h
    exact Or.inr ⟨by exact_mod_cast h, by norm_num⟩

/-- timeDifference exceeds 30 exactly when the millisecond difference
exceeds 30000. -/
theorem timeDifference_gt_iff (qrTime currentTime : Int) :
    timeDifference qrTime currentTime > 30 ↔ currentTime - qrTime > 30000 := by
  unfold timeDifference
  rw [gt_iff_lt, lt_div_iff₀ (by norm_num : (0 : ℚ) < 1000)]
  constructor
  · intro h
    exact_mod_cast h
  · intro h
    exact_mod_cast h

/-- The integer percentage of the route equals round((p / t) * 100)
over ℚ whenever t is positive. -/
theorem jsRoundPercent_eq_round (p t : Nat) (ht : 0 < t) :
    (jsRoundPercent p t : Int) = round (((p : ℚ) / (t : ℚ)) * 100) := by
  have ht' : (t : ℚ) ≠ 0 := Nat.cast_ne_zero.mpr ht.ne'
  have hx : ((p : ℚ) / (t : ℚ)) * 100 + 1 / 2
      = ((200 * p + t : Nat) : ℚ) / ((2 * t : Nat) : ℚ) := by
    push_cast
    field_simp
    ring
  rw [round_eq, hx, Rat.floor_natCast_div_natCast, jsRoundPercent]
  exact Int.ofNat_ediv _ _

/-! ## Helper lemmas about complete -/

theorem markCompleted_id (sid : String) (s : AttendanceSession) :
    (markCompleted sid s).id = s.id := by
  unfold markCompleted
  split <;> rfl

theorem markCompleted_lecturerId (sid : String) (s : AttendanceSession) :
    (markCompleted sid s).lecturerId = s.lecturerId := by
  unfold markCompleted
  split <;> rfl

theorem find?_map_markCompleted (l : List AttendanceSession) (sid : String) :
    (l.map (markCompleted sid)).find? (fun s => s.id == sid)
      = (l.find? (fun s => s.id == sid)).map (markCompleted sid) := by
  induction l with
  | nil => rfl
  | cons a l ih =>
    by_cases h : (a.id == sid) = true
    · rw [List.map_cons,
        List.find?_cons_of_pos (p := fun (s : AttendanceSession) => s.id == sid) _
          (by simpa [markCompleted_id] using h),
        List.find?_cons_of_pos (p := fun (s : AttendanceSession) => s.id == sid) _ h,
        Option.map_some']
    · rw [List.map_cons,
        List.find?_cons_of_neg (p := fun (s : AttendanceSession) => s.id == sid) _
          (by simpa [markCompleted_id] using h),
        List.find?_cons_of_neg (p := fun (s : AttendanceSession) => s.id == sid) _ h, ih]

theorem allStudents_backfill (st : Store) (sid : String) :
    allStudents (backfillAbsent st sid) = allStudents st := rfl

theorem sessions_backfill (st : Store) (sid : String) :
    (backfillAbsent st sid).sessions = st.sessions := rfl

/-- After the back-fill, the scanned ids of the session are the old ones
followed by the ids of the previously unscanned students. -/
theorem scannedStudentIds_backfill (st : Store) (sid : String) :
    scannedStudentIds (backfillAbsent st sid) sid
      = scannedStudentIds st sid ++ (unscannedStudents st sid).map (fun u => u.id) := by
  unfold scannedStudentIds sessionRecords backfillAbsent
  simp only [List.filter_append, List.map_append, List.filter_map]
  congr 1
  have hfil : (fun (r : AttendanceRecord) => r.sessionId == sid)
      ∘ (fun (u : User) => AttendanceRecord.mk sid u.id .absent none)
      = fun _ => true := by
    funext u
    simp
  rw [hfil, List.filter_true, List.map_map]
  rfl

/-- Every student has a record in the session after the back-fill, so a
second back-fill finds nobody unscanned. -/
theorem unscannedStudents_backfill (st : Store) (sid : String) :
    unscannedStudents (backfillAbsent st sid) sid = [] := by
  unfold unscannedStudents
  rw [allStudents_backfill, scannedStudentIds_backfill]
  rw [List.filter_eq_nil_iff]
  intro u hu
  simp only [Bool.not_eq_true', Bool.not_eq_false]
  have : u.id ∈ scannedStudentIds st sid ++ (unscannedStudents st sid).map (fun u => u.id) := by
    by_cases h : u.id ∈ scannedStudentIds st sid
    · exact List.mem_append_left _ h
    · refine List.mem_append_right _ ?_
      refine List.mem_map.mpr ⟨u, ?_, rfl⟩
      unfold unscannedStudents
      rw [List.mem_filter]
      refine ⟨hu, ?_⟩
      simp only [Bool.not_eq_true']
      exact (Bool.not_eq_true _).mp (fun hc => h (List.elem_iff.mp hc))
  exact List.elem_iff.mpr this

/-- Inversion of a successful complete call: the session was found, is
owned by the caller, and the result is the back-fill followed by the
status update, with absentCount the number of unscanned students. -/
theorem complete_ok_inv {st : Store} {sid c : String} {st1 : Store} {n : Nat}
    (h : complete st sid c = .ok (st1, n)) :
    ∃ s, st.sessions.find? (fun s => s.id == sid) = some s ∧ s.lecturerId = c
      ∧ st1 = setCompleted (backfillAbsent st sid) sid
      ∧ n = (unscannedStudents st sid).length := by
  unfold complete at h
  split at h
  · exact absurd h (by simp)
  · next s heq =>
    split at h
    · exact absurd h (by simp)
    · next hno =>
      injection h with h1
      injection h1 with h2 h3
      exact ⟨s, heq, not_ne_iff.mp hno, h2.symm, h3.symm⟩

theorem backfillAbsent_of_unscanned_nil {st : Store} {sid : String}
    (h : unscannedStudents st sid = []) : backfillAbsent st sid = st := by
  unfold backfillAbsent
  rw [h]
  simp

/-! ## Claim C4 -/

/-- C4 counterexample: complete factors into the back-fill insert
followed by the separate status update; at the demo store the
intermediate state already carries the back-filled absent record while
the session is still active, so back-fill and status flip are not one
atomic unit. -/
theorem c4_complete_not_atomic_cex :
    complete demoStore "s1" "L" = .ok (setCompleted (backfillAbsent demoStore "s1") "s1", 1)
    ∧ (backfillAbsent demoStore "s1").records.any
        (fun r => r.sessionId == "s1" && decide (r.status = RecordStatus.absent)) = true
    ∧ sessionStatus (backfillAbsent demoStore "s1") "s1" = some .active :=
  ⟨rfl, by decide, by decide⟩

/-- C4 amended: the back-fill and the status flip are two separate store
writes, so a failure between them leaves absent records in a still
active session; but complete is retry-safe: re-run from the intermediate
back-filled state it inserts nothing further, flips the status, and ends
in exactly the store an uninterrupted run produces. -/
theorem c4_complete_retry_restores (st : Store) (sid c : String) (st1 : Store)
    (n : Nat) (h : complete st sid c = .ok (st1, n)) :
    complete (backfillAbsent st sid) sid c = .ok (st1, 0) := by
  obtain ⟨s, hf, ho, hst1, hn⟩ := complete_ok_inv h
  subst hst1
  have hfind : (backfillAbsent st sid).sessions.find? (fun s => s.id == sid) = some s := by
    rw [sessions_backfill]; exact hf
  simp only [complete, hfind]
  rw [if_neg (not_ne_iff.mpr ho), unscannedStudents_backfill,
    backfillAbsent_of_unscanned_nil (unscannedStudents_backfill st sid)]
  simp

/-- Witness for C4: retrying from the partially applied state of the
demo store succeeds with absentCount 0 and the uninterrupted result. -/
theorem c4_complete_retry_restores_witness :
    complete (backfillAbsent demoStore "s1") "s1" "L"
      = .ok (setCompleted (backfillAbsent demoStore "s1") "s1", 0) :=
  c4_complete_retry_restores demoStore "s1" "L"
    (setCompleted (backfillAbsent demoStore "s1") "s1") 1 (by rfl)

/-! ## Claim C5 -/

/-- C5: a second complete run inserts no records — its unscanned set is
empty because the first run left every student with a record — so the
final record set equals that of a single run, and each run's absentCount
is the number of students lacking any record at that run's start. -/
theorem c5_complete_idempotent (st : Store) (sid c : String) (st1 : Store) (n : Nat)
    (h : complete st sid c = .ok (st1, n)) :
    n = (unscannedStudents st sid).length
    ∧ ∃ st2, complete st1 sid c = .ok (st2, 0) ∧ st2.records = st1.records := by
  obtain ⟨s, hf, ho, hst1, hn⟩ := complete_ok_inv h
  subst hst1
  have hunil : unscannedStudents (setCompleted (backfillAbsent st sid) sid) sid = [] :=
    unscannedStudents_backfill st sid
  have hbf : backfillAbsent (setCompleted (backfillAbsent st sid) sid) sid
      = setCompleted (backfillAbsent st sid) sid :=
    backfillAbsent_of_unscanned_nil hunil
  have hfind : (setCompleted (backfillAbsent st sid) sid).sessions.find?
      (fun s => s.id == sid) = some (markCompleted sid s) := by
    show (st.sessions.map (markCompleted sid)).find? (fun s => s.id == sid) = _
    rw [find?_map_markCompleted, hf, Option.map_some']
  refine ⟨hn, setCompleted (setCompleted (backfillAbsent st sid) sid) sid, ?_, rfl⟩
  simp only [complete, hfind]
  rw [if_neg (not_ne_iff.mpr (by rw [markCompleted_lecturerId]; exact ho)), hunil, hbf]
  simp

/-- Witness for C5 at the demo store: the first complete back-fills one
absent record; the second run returns absentCount 0 and leaves the
record set unchanged. -/
theorem c5_complete_idempotent_witness :
    1 = (unscannedStudents demoStore "s1").length
    ∧ ∃ st2, complete (setCompleted (backfillAbsent demoStore "s1") "s1") "s1" "L"
        = .ok (st2, 0)
      ∧ st2.records = (setCompleted (backfillAbsent demoStore "s1") "s1").records :=
  c5_complete_idempotent demoStore "s1" "L"
    (setCompleted (backfillAbsent demoStore "s1") "s1") 1 (by rfl)

/-! ## Record-counting lemmas for C1 and C2 -/

theorem hasRecord_iff_mem_scanned (st : Store) (sid uid : String) :
    hasRecord st sid uid = true ↔ uid ∈ scannedStudentIds st sid := by
  unfold hasRecord scannedStudentIds sessionRecords
  rw [List.any_eq_true]
  constructor
  · rintro ⟨r, hr, hp⟩
    rw [Bool.and_eq_true] at hp
    exact List.mem_map.mpr ⟨r, List.mem_filter.mpr ⟨hr, hp.1⟩, beq_iff_eq.mp hp.2⟩
  · intro hm
    obtain ⟨r, hrf, hrid⟩ := List.mem_map.mp hm
    obtain ⟨hr, hsid⟩ := List.mem_filter.mp hrf
    refine ⟨r, hr, ?_⟩
    rw [Bool.and_eq_true]
    exact ⟨hsid, by rw [hrid]; exact beq_self_eq_true _⟩

theorem recordCount_eq_zero_iff (st : Store) (sid uid : String) :
    recordCount st sid uid = 0 ↔ hasRecord st sid uid = false := by
  unfold recordCount hasRecord
  rw [List.countP_eq_zero]
  constructor
  · intro h
    rw [← Bool.not_eq_true, List.any_eq_true]
    rintro ⟨r, hr, hp⟩
    exact h r hr hp
  · intro h r hr hp
    rw [← Bool.not_eq_true, List.any_eq_true] at h
    exact h ⟨r, hr, hp⟩

theorem recordCount_pos (st : Store) (sid uid : String)
    (h : hasRecord st sid uid = true) : 0 < recordCount st sid uid := by
  unfold recordCount
  rw [List.countP_pos_iff]
  unfold hasRecord at h
  exact List.any_eq_true.mp h

/-- If the (sessionId, studentId) pairs of the stored records are
pairwise distinct, any single pair is matched by at most one record. -/
theorem countP_le_one_of_pairwise (l : List AttendanceRecord) (sid uid : String)
    (h : l.Pairwise (fun r1 r2 => ¬(r1.sessionId = r2.sessionId ∧ r1.studentId = r2.studentId))) :
    l.countP (fun r => r.sessionId == sid && r.studentId == uid) ≤ 1 := by
  induction l with
  | nil => simp
  | cons r l ih =>
    rw [List.countP_cons]
    rcases List.pairwise_cons.mp h with ⟨hr, hl⟩
    by_cases hp : (r.sessionId == sid && r.studentId == uid) = true
    · have h0 : l.countP (fun r => r.sessionId == sid && r.studentId == uid) = 0 := by
        rw [List.countP_eq_zero]
        intro r2 hr2 hp2
        rw [Bool.and_eq_true, beq_iff_eq, beq_iff_eq] at hp hp2
        exact hr r2 hr2 ⟨hp.1.trans hp2.1.symm, hp.2.trans hp2.2.symm⟩
      rw [h0]
      simp [hp]
    · rw [if_neg hp]
      have := ih hl
      omega

/-- The back-filled block contributes to the count of a pair exactly the
number of unscanned students with the matching id. -/
theorem countP_backfill_block (st : Store) (sid uid : String) :
    ((unscannedStudents st sid).map
        (fun u => AttendanceRecord.mk sid u.id .absent none)).countP
        (fun r => r.sessionId == sid && r.studentId == uid)
      = (unscannedStudents st sid).countP (fun u => u.id == uid) := by
  rw [List.countP_map]
  congr 1
  funext u
  simp [Function.comp]

theorem countP_unscanned_of_hasRecord (st : Store) (sid uid : String)
    (h : hasRecord st sid uid = true) :
    (unscannedStudents st sid).countP (fun u => u.id == uid) = 0 := by
  rw [List.countP_eq_zero]
  intro u hu hp
  obtain ⟨hall, hcon⟩ := List.mem_filter.mp hu
  have hid : u.id = uid := beq_iff_eq.mp hp
  have hmem : u.id ∈ scannedStudentIds st sid := by
    rw [hid]
    exact (hasRecord_iff_mem_scanned st sid uid).mp h
  rw [Bool.not_eq_true'] at hcon
  have hcon2 : List.elem u.id (scannedStudentIds st sid) = false := hcon
  have htrue : List.elem u.id (scannedStudentIds st sid) = true := List.elem_iff.mpr hmem
  rw [hcon2] at htrue
  exact absurd htrue (by simp)

theorem countP_unscanned_of_not_hasRecord (st : Store) (sid : String) (u : User)
    (hu : u ∈ allStudents st) (h : hasRecord st sid u.id = false)
    (hnodup : (st.users.map (fun v => v.id)).Nodup) :
    (unscannedStudents st sid).countP (fun v => v.id == u.id) = 1 := by
  have hmem : u ∈ unscannedStudents st sid := by
    unfold unscannedStudents
    rw [List.mem_filter]
    refine ⟨hu, ?_⟩
    rw [Bool.not_eq_true']
    cases hc : (scannedStudentIds st sid).contains u.id with
    | false => rfl
    | true =>
      have : hasRecord st sid u.id = true :=
        (hasRecord_iff_mem_scanned st sid u.id).mpr (List.elem_iff.mp hc)
      rw [h] at this
      exact absurd this (by simp)
  have hpos : 0 < (unscannedStudents st sid).countP (fun v => v.id == u.id) :=
    List.countP_pos_iff.mpr ⟨u, hmem, beq_self_eq_true _⟩
  have hle : (unscannedStudents st sid).countP (fun v => v.id == u.id) ≤ 1 := by
    have hsub : List.Sublist ((unscannedStudents st sid).map (fun v => v.id))
        (st.users.map (fun v => v.id)) :=
      List.Sublist.map _ ((List.filter_sublist _).trans (List.filter_sublist _))
    have hnd : ((unscannedStudents st sid).map (fun v => v.id)).Nodup :=
      hnodup.sublist hsub
    have hcnt := List.nodup_iff_count_le_one.mp hnd u.id
    rw [List.count_eq_countP, List.countP_map] at hcnt
    exact hcnt
  omega

theorem records_setCompleted_backfill (st : Store) (sid : String) :
    (setCompleted (backfillAbsent st sid) sid).records
      = st.records ++ (unscannedStudents st sid).map
          (fun u => AttendanceRecord.mk sid u.id .absent none) := rfl

/-! ## Claim C1 -/

/-- C1 counterexample: in the demo store, Bob (u2) is a student with no
record in any session of course c1, hence outside the course-affiliated
set the route itself computes (courseStudents) — yet after complete he
holds a record in session s1.  The back-fill is not limited to the
course. -/
theorem c1_backfill_beyond_course_cex :
    (courseStudents demoStore "c1").all (fun u => !(u.id == "u2")) = true
    ∧ demoStore.users.any (fun u => u.id == "u2" && u.role == "student") = true
    ∧ hasRecord demoStore "s1" "u2" = false
    ∧ hasRecord (completeStore demoStore "s1" "L") "s1" "u2" = true :=
  ⟨by decide, by decide, by decide, by decide⟩

/-- C1 amended: complete back-fills exactly allStudents minus
studentsWithAnyRecord(sessionId), where allStudents is every user with
role student in the system (the course-affiliated set is queried but
unused).  Afterwards every such student — not only course-affiliated
ones — has exactly one record in the session, provided the store
satisfied the storage uniqueness invariant and user ids are unique. -/
theorem c1_complete_one_record_per_student (st : Store) (sid c : String) (st1 : Store)
    (n : Nat) (h : complete st sid c = .ok (st1, n))
    (hpair : st.records.Pairwise
      (fun r1 r2 => ¬(r1.sessionId = r2.sessionId ∧ r1.studentId = r2.studentId)))
    (hnodup : (st.users.map (fun v => v.id)).Nodup) :
    st1.records = st.records ++ (unscannedStudents st sid).map
        (fun u => AttendanceRecord.mk sid u.id .absent none)
    ∧ ∀ u ∈ allStudents st, recordCount st1 sid u.id = 1 := by
  obtain ⟨s, hf, ho, hst1, hn⟩ := complete_ok_inv h
  subst hst1
  refine ⟨rfl, ?_⟩
  intro u hu
  have hsplit : recordCount (setCompleted (backfillAbsent st sid) sid) sid u.id
      = recordCount st sid u.id
        + (unscannedStudents st sid).countP (fun v => v.id == u.id) := by
    unfold recordCount
    rw [records_setCompleted_backfill, List.countP_append, countP_backfill_block]
  rw [hsplit]
  cases hr : hasRecord st sid u.id with
  | false =>
    rw [(recordCount_eq_zero_iff st sid u.id).mpr hr,
      countP_unscanned_of_not_hasRecord st sid u hu hr hnodup]
  | true =>
    have h1 : recordCount st sid u.id = 1 :=
      le_antisymm (countP_le_one_of_pairwise st.records sid u.id hpair)
        (recordCount_pos st sid u.id hr)
    rw [h1, countP_unscanned_of_hasRecord st sid u.id hr]

/-- Witness for C1 at the demo store: the back-fill appended exactly the
absent record for Bob, and both students end with exactly one record. -/
theorem c1_complete_one_record_per_student_witness :
    (setCompleted (backfillAbsent demoStore "s1") "s1").records
        = demoStore.records ++ (unscannedStudents demoStore "s1").map
            (fun u => AttendanceRecord.mk "s1" u.id .absent none)
    ∧ ∀ u ∈ allStudents demoStore,
        recordCount (setCompleted (backfillAbsent demoStore "s1") "s1") "s1" u.id = 1 :=
  c1_complete_one_record_per_student demoStore "s1" "L"
    (setCompleted (backfillAbsent demoStore "s1") "s1") 1 (by rfl) (by decide) (by decide)

/-! ## Claim C2 -/

theorem insertRecordDb_of_not_has (st : Store) (r : AttendanceRecord)
    (h : hasRecord st r.sessionId r.studentId = false) :
    insertRecordDb st r = some { st with records := st.records ++ [r] } := by
  unfold insertRecordDb
  rw [if_neg]
  rw [h]
  simp

theorem insertRecordDb_of_has (st : Store) (r : AttendanceRecord)
    (h : hasRecord st r.sessionId r.studentId = true) :
    insertRecordDb st r = none := by
  unfold insertRecordDb
  rw [if_pos h]

/-- C2 counterexample: from a store with no record, the interleaving in
which both requests pass the application pre-check has the first call
succeed and the second fail with the generic internal error surfaced
from the storage constraint violation — not with the duplicate-scan
error.  The duplicate-scan error itself is produced by the read-phase
pre-check (as at the demo store), the very application-level
read-then-write the claim rules out. -/
theorem c2_race_loser_generic_error_cex :
    (raceSameScan scanStore "s1" qrAlice "L" 1000).1 = .ok "Alice"
    ∧ (raceSameScan scanStore "s1" qrAlice "L" 1000).2.1 = .error .internalError
    ∧ (raceSameScan scanStore "s1" qrAlice "L" 1000).2.1 ≠ .error .alreadyScanned
    ∧ scanChecks demoStore "s1" qrAlice "L" 1000 = .error .alreadyScanned := by
  refine ⟨rfl, rfl, ?_, rfl⟩
  intro hcontra
  injection hcontra with h
  exact absurd h (by decide)

/-- C2 amended: the schema's unique index makes the insert itself
atomic, so when two scans of the same student race past the pre-check,
exactly one succeeds, exactly one record exists afterwards, and the
loser's constraint violation surfaces as the generic internal error,
not as the duplicate-scan error (which only the sequential pre-check
path returns). -/
theorem c2_race_storage_resolves (st : Store) (sid : String) (q : QrData) (c : String)
    (now : Int) (stuId nm : String)
    (hchecks : scanChecks st sid q c now = .ok (stuId, nm))
    (hno : hasRecord st sid stuId = false) :
    raceSameScan st sid q c now
      = (.ok nm, .error .internalError,
         { st with records := st.records ++ [AttendanceRecord.mk sid stuId .present (some now)] })
    ∧ recordCount { st with records := st.records
          ++ [AttendanceRecord.mk sid stuId .present (some now)] } sid stuId = 1 := by
  have h2 : hasRecord { st with records := st.records
      ++ [AttendanceRecord.mk sid stuId .present (some now)] } sid stuId = true := by
    unfold hasRecord
    simp
  constructor
  · simp only [raceSameScan, hchecks,
      insertRecordDb_of_not_has st (AttendanceRecord.mk sid stuId .present (some now)) hno,
      insertRecordDb_of_has
        { st with records := st.records
            ++ [AttendanceRecord.mk sid stuId .present (some now)] }
        (AttendanceRecord.mk sid stuId .present (some now)) h2]
  · have h0 : recordCount st sid stuId = 0 := (recordCount_eq_zero_iff st sid stuId).mpr hno
    unfold recordCount at h0 ⊢
    rw [List.countP_append, h0]
    simp

/-- Witness for C2: the race at the empty-record store with Alice
scanned twice. -/
theorem c2_race_storage_resolves_witness :
    raceSameScan scanStore "s1" qrAlice "L" 1000
      = (.ok "Alice", .error .internalError,
         { scanStore with records := scanStore.records
             ++ [AttendanceRecord.mk "s1" "u1" .present (some 1000)] })
    ∧ recordCount { scanStore with records := scanStore.records
          ++ [AttendanceRecord.mk "s1" "u1" .present (some 1000)] } "s1" "u1" = 1 :=
  c2_race_storage_resolves scanStore "s1" qrAlice "L" 1000 "u1" "Alice" (by rfl) (by rfl)

/-! ## Claim C3 -/

/-- C3 counterexample: with no sessions at all and a stale payload (age
45 s), the scan fails with the freshness error, not with the
session-not-found error — freshness runs before the existence check. -/
theorem c3_stale_beats_notfound_cex :
    emptyStore.sessions.find? (fun s => s.id == "s1") = none
    ∧ recordScan emptyStore "s1" (some (.parsed (some "u1") (some "Alice") (some 0))) "L" 45000
        = .error .expired
    ∧ ScanError.expired ≠ ScanError.sessionNotFound :=
  ⟨rfl, rfl, by decide⟩

/-- C3 amended: the scan validates payload freshness before looking the
session up.  Whenever the freshness guard fires, the result is the
freshness error regardless of the store; the session-not-found error is
returned only once the payload has passed the guard. -/
theorem c3_freshness_precedes_existence (st : Store) (sid : String)
    (a b : Option String) (ts now : Int) (c : String) :
    (freshnessFails (some ts) now = true →
      recordScan st sid (some (.parsed a b (some ts))) c now = .error .expired)
    ∧ (freshnessFails (some ts) now = false →
        st.sessions.find? (fun s => s.id == sid) = none →
        recordScan st sid (some (.parsed a b (some ts))) c now = .error .sessionNotFound) := by
  constructor
  · intro h
    simp only [recordScan, scanChecks, h, if_true]
  · intro h hf
    simp only [recordScan, scanChecks, h, Bool.false_eq_true, if_false, hf]

/-- Witness for C3: a stale payload at a missing session yields the
freshness error; a fresh payload at the same missing session yields the
not-found error. -/
theorem c3_freshness_precedes_existence_witness :
    recordScan emptyStore "s2" (some (.parsed (some "u1") (some "A") (some 0))) "L" 45000
        = .error .expired
    ∧ recordScan emptyStore "s2" (some (.parsed (some "u1") (some "A") (some 44000))) "L" 45000
        = .error .sessionNotFound :=
  ⟨(c3_freshness_precedes_existence emptyStore "s2" (some "u1") (some "A") 0 45000 "L").1
      (by decide),
   (c3_freshness_precedes_existence emptyStore "s2" (some "u1") (some "A") 44000 45000 "L").2
      (by decide) (by rfl)⟩

/-! ## Claim C6 -/

/-- C6 counterexample: a future-dated payload (age -5 s) and a stale
payload (age 45 s) both fail with the one combined error of route line
418; the code has no separate future-payload and stale-payload kinds. -/
theorem c6_single_error_kind_cex :
    timeDifference 5000 0 < 0
    ∧ timeDifference 0 45000 > 30
    ∧ recordScan demoStore "s1" (some (.parsed (some "u2") (some "Bob") (some 5000))) "L" 0
        = .error .expired
    ∧ recordScan demoStore "s1" (some (.parsed (some "u2") (some "Bob") (some 0))) "L" 45000
        = .error .expired := by
  refine ⟨?_, ?_, rfl, rfl⟩
  · rw [timeDifference_neg_iff]
    decide
  · rw [timeDifference_gt_iff]
    decide

/-- C6 amended: both a negative age and an age above 30 seconds fail
with the same single error kind — the combined invalid-or-expired
rejection — so a caller cannot discriminate a future-dated payload from
an expired one. -/
theorem c6_future_and_stale_collapse (st : Store) (sid : String) (a b : Option String)
    (ts now : Int) (c : String)
    (h : timeDifference ts now < 0 ∨ timeDifference ts now > 30) :
    recordScan st sid (some (.parsed a b (some ts))) c now = .error .expired := by
  have hb : freshnessFails (some ts) now = true := by
    unfold freshnessFails
    rcases h with h | h
    · rw [timeDifference_neg_iff] at h
      simp [h]
    · rw [timeDifference_gt_iff] at h
      simp [h]
  simp only [recordScan, scanChecks, hb, if_true]

/-- Witness for C6 at a future-dated payload. -/
theorem c6_future_and_stale_collapse_witness :
    recordScan emptyStore "s1" (some (.parsed none none (some 60000))) "L" 0
      = .error .expired :=
  c6_future_and_stale_collapse emptyStore "s1" none none 60000 0 "L"
    (Or.inl ((timeDifference_neg_iff 60000 0).mpr (by decide)))

/-! ## Claim C7 -/

/-- C7: for a well-formed payload the freshness guard passes exactly
when 0 ≤ age ≤ 30 seconds, the 30-second upper bound inclusive. -/
theorem c7_validate_ok_iff_age_in_window (ts now : Int) :
    freshnessFails (some ts) now = false
      ↔ (0 ≤ timeDifference ts now ∧ timeDifference ts now ≤ 30) := by
  unfold freshnessFails
  rw [Bool.or_eq_false_iff, decide_eq_false_iff_not, decide_eq_false_iff_not,
    ← timeDifference_neg_iff, ← timeDifference_gt_iff]
  simp [not_lt]

/-! ## Claim C8 -/

/-- C8: unparseable raw text is rejected as the malformed-format error,
but a parseable object with no usable timestamp is not: its NaN age
passes the freshness guard (both comparisons false) and the scan
proceeds to the session lookup — here reporting session-not-found on an
empty store instead of a malformed-payload error. -/
theorem c8_missing_timestamp_not_rejected :
    recordScan emptyStore "s1" (some .malformed) "L" 1000 = .error .invalidFormat
    ∧ freshnessFails none 1000 = false
    ∧ recordScan emptyStore "s1" (some (.parsed none none none)) "L" 1000
        = .error .sessionNotFound
    ∧ ScanError.sessionNotFound ≠ ScanError.invalidFormat :=
  ⟨rfl, rfl, rfl, by decide⟩

/-! ## Claim C9 -/

/-- C9: for every filter, the statistics percentage is 0 when the
distinct-student total is 0 — the division is guarded, never performed —
and otherwise equals round(100 x presentCount / total). -/
theorem c9_stats_percentage_guard (st : Store) (lid : String) (cid : Option String)
    (wk : Option Int) :
    (computeStats (statRows st lid cid wk)).percentage
      = if (computeStats (statRows st lid cid wk)).totalStudents = 0 then 0
        else round ((100 : ℚ) * ((computeStats (statRows st lid cid wk)).presentCount : ℚ)
              / ((computeStats (statRows st lid cid wk)).totalStudents : ℚ)) := by
  have key : ∀ (p t : Nat), (if t > 0 then (jsRoundPercent p t : Int) else 0)
      = if t = 0 then 0 else round ((100 : ℚ) * (p : ℚ) / (t : ℚ)) := by
    intro p t
    rcases Nat.eq_zero_or_pos t with ht | ht
    · subst ht
      simp
    · rw [if_pos ht, if_neg ht.ne', jsRoundPercent_eq_round p t ht]
      congr 1
      rw [div_mul_eq_mul_div, mul_comm]
  exact key (computeStats (statRows st lid cid wk)).presentCount
    (computeStats (statRows st lid cid wk)).totalStudents

/-! ## Claim C10 -/

/-- C10: presentCount and absentCount are the lengths of the matched
record lists before deduplication, while the returned lists are
deduplicated per studentId; with one student present in two matched
sessions, presentCount (2) exceeds the returned list length (1) and the
percentage is 200, above 100. -/
theorem c10_counts_before_dedup :
    (∀ rows : List StatRow,
      (computeStats rows).presentCount
          = (rows.filter (fun r => r.status == RecordStatus.present)).length
      ∧ (computeStats rows).absentCount
          = (rows.filter (fun r => r.status == RecordStatus.absent)).length)
    ∧ (computeStats statRowsDup).presentCount
        > (computeStats statRowsDup).presentList.length
    ∧ (computeStats statRowsDup).percentage > 100 := by
  refine ⟨?_, by decide, by decide⟩
  intro rows
  constructor <;> simp [computeStats]

end Attendance
